import Mathlib

/-!
Shallow embedding of the violation-detection engine in
`src/src/components/DetectionStatistics.jsx` (React component
`DetectionStatistics`), together with proofs of the specification claims.

The component's mutable pieces (the `stats` counters, the
`currentDetections` active flags, the `focusLostFrames` / `drowsyFrames`
refs, and the lifecycle flags) become one explicit `EngineState` record;
each scheduled tick (`runDetection`) becomes a pure state-transition
function.  The nondeterministic inputs of a tick — the faces and raw
object predictions returned by the BlazeFace / coco-ssd models, the
video element's dimensions and presence, and the `Math.random() < 0.08`
coin flip inside `detectDrowsiness` — are gathered into a `FrameInput`
record supplied to the transition.  Machine floats become `ℚ`.
-/

namespace DetectionStatistics

/-- `FOCUS_LOST_FRAMES = 35` (line 9 of the source). -/
def FOCUS_LOST_FRAMES : ℕ := 35

/-- `DROWSINESS_FRAMES = 15` (line 8 of the source). -/
def DROWSINESS_FRAMES : ℕ := 15

/-- One face as produced by `detectFacesTF`: the bounding-box centre
(`centerX`/`centerY`), the detection probability, and whether the
prediction carried landmark data (`pred.landmarks` truthy). -/
structure Face where
  centerX : ℚ
  centerY : ℚ
  probability : ℚ
  hasLandmarks : Bool
deriving DecidableEq, Repr

/-- One raw coco-ssd prediction as consumed by `detectObjectsTF`:
its class string and its score. -/
structure CocoPred where
  cls : String
  score : ℚ
deriving DecidableEq, Repr

/-- One mapped object as returned by `detectObjectsTF`
(`class` renamed to `cls`; `bbox` is irrelevant to the claims). -/
structure DetectedObject where
  cls : String
  confidence : ℚ
deriving DecidableEq, Repr

/-- `detectObjectsTF` (lines 91-100): keep only predictions whose class
is "cell phone" or "book", and map them to `{class, confidence}` with
"cell phone" renamed to "phone" and "book" kept as "book". -/
def detectObjectsTF (preds : List CocoPred) : List DetectedObject :=
  (preds.filter (fun p => p.cls == "cell phone" || p.cls == "book")).map
    (fun p =>
      { cls := if p.cls == "cell phone" then "phone" else "book",
        confidence := p.score })

/-- The six violation kinds tracked by the component. -/
inductive Kind where
  | focusLost
  | faceAbsent
  | multipleFaces
  | phoneDetected
  | notesDetected
  | drowsiness
deriving DecidableEq, Repr

/-- The `stats` state object: one non-negative counter per kind. -/
structure Stats where
  focusLost : ℕ
  faceAbsent : ℕ
  multipleFaces : ℕ
  phoneDetected : ℕ
  notesDetected : ℕ
  drowsiness : ℕ
deriving DecidableEq, Repr

/-- Read the counter of one kind. -/
def Stats.get (st : Stats) : Kind → ℕ
  | .focusLost => st.focusLost
  | .faceAbsent => st.faceAbsent
  | .multipleFaces => st.multipleFaces
  | .phoneDetected => st.phoneDetected
  | .notesDetected => st.notesDetected
  | .drowsiness => st.drowsiness

/-- `prev[detectionType] + 1` inside `triggerDetection` (line 215). -/
def Stats.incr (st : Stats) : Kind → Stats
  | .focusLost => { st with focusLost := st.focusLost + 1 }
  | .faceAbsent => { st with faceAbsent := st.faceAbsent + 1 }
  | .multipleFaces => { st with multipleFaces := st.multipleFaces + 1 }
  | .phoneDetected => { st with phoneDetected := st.phoneDetected + 1 }
  | .notesDetected => { st with notesDetected := st.notesDetected + 1 }
  | .drowsiness => { st with drowsiness := st.drowsiness + 1 }

/-- All counters zero: the object literal in `resetStats` (line 220)
and the initial `useState` value (lines 12-19). -/
def Stats.zero : Stats := ⟨0, 0, 0, 0, 0, 0⟩

/-- `getTotalViolations` (line 241): the sum of the six counters. -/
def getTotalViolations (st : Stats) : ℕ :=
  st.focusLost + st.faceAbsent + st.multipleFaces +
    st.phoneDetected + st.notesDetected + st.drowsiness

/-- The `currentDetections` state object: one active flag per kind. -/
structure Detections where
  focusLost : Bool
  faceAbsent : Bool
  multipleFaces : Bool
  phoneDetected : Bool
  notesDetected : Bool
  drowsiness : Bool
deriving DecidableEq, Repr

/-- Read the active flag of one kind. -/
def Detections.get (d : Detections) : Kind → Bool
  | .focusLost => d.focusLost
  | .faceAbsent => d.faceAbsent
  | .multipleFaces => d.multipleFaces
  | .phoneDetected => d.phoneDetected
  | .notesDetected => d.notesDetected
  | .drowsiness => d.drowsiness

/-- Overwrite the active flag of one kind
(`{...prev, [detectionType]: b}` in lines 216 and 218). -/
def Detections.set (d : Detections) (k : Kind) (b : Bool) : Detections :=
  match k with
  | .focusLost => { d with focusLost := b }
  | .faceAbsent => { d with faceAbsent := b }
  | .multipleFaces => { d with multipleFaces := b }
  | .phoneDetected => { d with phoneDetected := b }
  | .notesDetected => { d with notesDetected := b }
  | .drowsiness => { d with drowsiness := b }

/-- All flags false: the object literal in `resetStats` (line 221)
and the initial `useState` value (lines 21-28). -/
def Detections.allFalse : Detections :=
  ⟨false, false, false, false, false, false⟩

/-- One entry of the `detectionResults` array built during a tick:
`{ type, active }`. -/
structure DetectionResult where
  type : Kind
  active : Bool
deriving DecidableEq, Repr

/-- The component's mutable state: the two `useState` records `stats`
and `currentDetections`, the hysteresis refs `focusLostFrames` and
`drowsyFrames`, the lifecycle flags, and the last published
`detectionResults` snapshot. -/
structure EngineState where
  stats : Stats
  currentDetections : Detections
  focusLostFrames : ℕ
  drowsyFrames : ℕ
  isMonitoring : Bool
  cameraActive : Bool
  modelsLoaded : Bool
  detectionResults : List DetectionResult
deriving DecidableEq, Repr

/-- The per-tick inputs a single `runDetection` call consumes:
whether `videoRef.current` is non-null, the faces returned by
`detectFacesTF`, the raw coco-ssd predictions fed to `detectObjectsTF`,
the video element's `videoWidth` / `videoHeight` (0 when unavailable,
mirroring the JS falsy fallback), and the outcome of the
`Math.random() < 0.08` draw inside `detectDrowsiness`. -/
structure FrameInput where
  videoPresent : Bool
  faces : List Face
  preds : List CocoPred
  videoWidth : ℚ
  videoHeight : ℚ
  coin : Bool
deriving DecidableEq, Repr

/-- The JS `a || d` fallback on the video dimensions
(`videoRef.current?.videoWidth || 640`, lines 111-112): a numeric value
that is 0 (falsy) is replaced by the default. -/
def orDefault (a d : ℚ) : ℚ := if a = 0 then d else a

/-- The drift test of `detectFocusLoss` (lines 113-116).  The source
computes `drift = Math.sqrt(dX*dX + dY*dY)` and tests
`drift > Math.min(videoW, videoH) / 4`; for a non-negative threshold
(video dimensions are non-negative) this is equivalent to comparing the
squares, which keeps the definition inside `ℚ`.  The equivalence with
the genuine square-root comparison over `ℝ` is proved in claim C3. -/
def driftExceeds (f : Face) (w h : ℚ) : Bool :=
  decide ((|f.centerX - w / 2|) ^ 2 + (|f.centerY - h / 2|) ^ 2
    > (min w h / 4) ^ 2)

/-- `detectFocusLoss` (lines 103-119), with the `focusLostFrames` ref
made explicit: returns the new counter and the boolean result.
No face: increment the counter.  Face present: increment on drift
beyond a quarter of the smaller dimension, otherwise decrement floored
at 0 (`Math.max(0, c-1)` is `ℕ` subtraction).  Returns
`counter >= FOCUS_LOST_FRAMES`. -/
def detectFocusLoss (face : Option Face) (w h : ℚ) (counter : ℕ) :
    ℕ × Bool :=
  match face with
  | none =>
    let c := counter + 1
    (c, decide (c ≥ FOCUS_LOST_FRAMES))
  | some f =>
    let c := if driftExceeds f w h then counter + 1 else counter - 1
    (c, decide (c ≥ FOCUS_LOST_FRAMES))

/-- `detectDrowsiness` (lines 122-132), with the `drowsyFrames` ref
made explicit and the `Math.random() < 0.08` draw supplied as `coin`:
no face or no landmarks resets the counter to 0 and returns false;
otherwise the counter increments on a closed-eye frame and resets to 0
on an open one, and the call returns `counter >= DROWSINESS_FRAMES`. -/
def detectDrowsiness (face : Option Face) (coin : Bool) (counter : ℕ) :
    ℕ × Bool :=
  match face with
  | none => (0, false)
  | some f =>
    if f.hasLandmarks then
      let c := if coin then counter + 1 else 0
      (c, decide (c ≥ DROWSINESS_FRAMES))
    else (0, false)

/-- `triggerDetection` (lines 214-217): increment the kind's counter
and set its active flag. -/
def triggerDetection (k : Kind) (s : EngineState) : EngineState :=
  { s with stats := s.stats.incr k,
           currentDetections := s.currentDetections.set k true }

/-- `clearDetection` (line 218): clear the kind's active flag. -/
def clearDetection (k : Kind) (s : EngineState) : EngineState :=
  { s with currentDetections := s.currentDetections.set k false }

/-- One kind's edge handling inside `runDetection`: given the kind's
classifier output `b` for this tick and the pre-tick snapshot `pre` of
`currentDetections` (the closure value the source reads), call
`triggerDetection` on a false→true edge, `clearDetection` on a
true→false edge, and do nothing otherwise.  Mirrors each of the six
if/else blocks in lines 144-198. -/
def stepKind (k : Kind) (b : Bool) (pre : Detections)
    (s : EngineState) : EngineState :=
  if b then
    if pre.get k then s else triggerDetection k s
  else
    if pre.get k then clearDetection k s else s

/-- `phoneDetected` inside `runDetection` (line 182):
`objects.some(obj => obj.class === 'phone')`. -/
def phoneDetected (objects : List DetectedObject) : Bool :=
  objects.any (fun o => o.cls == "phone")

/-- `notesDetected` inside `runDetection` (line 183):
`objects.some(obj => obj.class === 'book')`. -/
def notesDetected (objects : List DetectedObject) : Bool :=
  objects.any (fun o => o.cls == "book")

/-- `runDetection` (lines 135-201): the body of one scheduled tick.
Skips entirely when `videoRef.current` is null, the camera is off, or
the models are not loaded (line 136).  Otherwise classifies the frame,
edge-processes the six kinds against the pre-tick `currentDetections`
snapshot, updates the two hysteresis refs, and publishes the full
six-entry `detectionResults` snapshot. -/
def runDetection (i : FrameInput) (s : EngineState) : EngineState :=
  if !i.videoPresent || !s.cameraActive || !s.modelsLoaded then s
  else
    let pre := s.currentDetections
    let objects := detectObjectsTF i.preds
    let mainFace := i.faces.head?
    let faceAbsentB := mainFace.isNone
    let multipleB := decide (i.faces.length > 1)
    let focusR := detectFocusLoss mainFace
      (orDefault i.videoWidth 640) (orDefault i.videoHeight 480)
      s.focusLostFrames
    let drowsyR := detectDrowsiness mainFace i.coin s.drowsyFrames
    let phoneB := phoneDetected objects
    let notesB := notesDetected objects
    let s1 := stepKind .faceAbsent faceAbsentB pre s
    let s2 := stepKind .multipleFaces multipleB pre s1
    let s3 := stepKind .focusLost focusR.2 pre
      { s2 with focusLostFrames := focusR.1 }
    let s4 := stepKind .drowsiness drowsyR.2 pre
      { s3 with drowsyFrames := drowsyR.1 }
    let s5 := stepKind .phoneDetected phoneB pre s4
    let s6 := stepKind .notesDetected notesB pre s5
    { s6 with detectionResults :=
        [⟨.faceAbsent, faceAbsentB⟩, ⟨.multipleFaces, multipleB⟩,
         ⟨.focusLost, focusR.2⟩, ⟨.drowsiness, drowsyR.2⟩,
         ⟨.phoneDetected, phoneB⟩, ⟨.notesDetected, notesB⟩] }

/-- `resetStats` (lines 219-223): zero all counters, clear all active
flags, zero both hysteresis refs. -/
def resetStats (s : EngineState) : EngineState :=
  { s with stats := Stats.zero,
           currentDetections := Detections.allFalse,
           focusLostFrames := 0,
           drowsyFrames := 0 }

/-- `handleStartStop` (lines 225-232): when not monitoring, start the
camera (idempotently) and set the monitoring flag; when monitoring,
clear the monitoring flag and stop the camera (`stopCamera`,
lines 69-73, only tears down the stream and clears `cameraActive`). -/
def handleStartStop (s : EngineState) : EngineState :=
  if s.isMonitoring then
    { s with isMonitoring := false, cameraActive := false }
  else
    { s with isMonitoring := true, cameraActive := true }

/-- `getSeverityLevel` (lines 242-248) restricted to the level string
(the color strings are presentation only), as a function of the total
violation count. -/
def getSeverityLevel (t : ℕ) : String :=
  if t ≥ 20 then "Critical"
  else if t ≥ 15 then "High Risk"
  else if t ≥ 8 then "Medium Risk"
  else if t ≥ 3 then "Low Risk"
  else "Normal"

/-- Iterated ticks: fold `runDetection` over a list of frame inputs. -/
def runTicks (inputs : List FrameInput) (s : EngineState) : EngineState :=
  inputs.foldl (fun st i => runDetection i st) s

/-- The boolean classifier output `runDetection` computes for one kind
on one tick (it depends on the state only through the two hysteresis
counters). -/
def kindOutput (i : FrameInput) (s : EngineState) : Kind → Bool
  | .faceAbsent => i.faces.head?.isNone
  | .multipleFaces => decide (i.faces.length > 1)
  | .focusLost =>
    (detectFocusLoss i.faces.head?
      (orDefault i.videoWidth 640) (orDefault i.videoHeight 480)
      s.focusLostFrames).2
  | .drowsiness => (detectDrowsiness i.faces.head? i.coin s.drowsyFrames).2
  | .phoneDetected => phoneDetected (detectObjectsTF i.preds)
  | .notesDetected => notesDetected (detectObjectsTF i.preds)

/-- The number of false→true edges of a boolean sequence, given the
value preceding the sequence. -/
def countEdges (prev : Bool) : List Bool → ℕ
  | [] => 0
  | b :: rest => (if b && !prev then 1 else 0) + countEdges b rest

/-- The sequence of classifier outputs one kind produces along a run
of ticks starting from a given state. -/
def outputTrace (k : Kind) : List FrameInput → EngineState → List Bool
  | [], _ => []
  | i :: rest, s => kindOutput i s k :: outputTrace k rest (runDetection i s)

/-! ### Projection lemmas -/

theorem Stats.get_incr (st : Stats) (k k' : Kind) :
    (st.incr k).get k' = st.get k' + (if k' = k then 1 else 0) := by
  cases k <;> cases k' <;> simp [Stats.incr, Stats.get]

theorem Detections.get_set (d : Detections) (k : Kind) (b : Bool) (k' : Kind) :
    (d.set k b).get k' = if k' = k then b else d.get k' := by
  cases k <;> cases k' <;> simp [Detections.set, Detections.get]

theorem stepKind_stats_get (k : Kind) (b : Bool) (pre : Detections)
    (s : EngineState) (k' : Kind) :
    (stepKind k b pre s).stats.get k' =
      s.stats.get k' +
        (if k' = k ∧ b = true ∧ pre.get k = false then 1 else 0) := by
  unfold stepKind triggerDetection clearDetection
  cases b <;> rcases hp : pre.get k <;>
    simp [Stats.get_incr, hp]

theorem stepKind_det_get_ne (k : Kind) (b : Bool) (pre : Detections)
    (s : EngineState) (k' : Kind) (h : k' ≠ k) :
    (stepKind k b pre s).currentDetections.get k' =
      s.currentDetections.get k' := by
  unfold stepKind triggerDetection clearDetection
  cases b <;> rcases hp : pre.get k <;>
    simp [Detections.get_set, h]

theorem stepKind_det_get_self (k : Kind) (b : Bool) (pre : Detections)
    (s : EngineState) (h : s.currentDetections.get k = pre.get k) :
    (stepKind k b pre s).currentDetections.get k = b := by
  unfold stepKind triggerDetection clearDetection
  cases b <;> rcases hp : pre.get k <;>
    simp [Detections.get_set, hp ▸ h, hp]

theorem stepKind_focusLostFrames (k : Kind) (b : Bool) (pre : Detections)
    (s : EngineState) :
    (stepKind k b pre s).focusLostFrames = s.focusLostFrames := by
  unfold stepKind triggerDetection clearDetection
  cases b <;> rcases hp : pre.get k <;> simp [hp]

theorem stepKind_drowsyFrames (k : Kind) (b : Bool) (pre : Detections)
    (s : EngineState) :
    (stepKind k b pre s).drowsyFrames = s.drowsyFrames := by
  unfold stepKind triggerDetection clearDetection
  cases b <;> rcases hp : pre.get k <;> simp [hp]

theorem stepKind_cameraActive (k : Kind) (b : Bool) (pre : Detections)
    (s : EngineState) :
    (stepKind k b pre s).cameraActive = s.cameraActive := by
  unfold stepKind triggerDetection clearDetection
  cases b <;> rcases hp : pre.get k <;> simp [hp]

theorem stepKind_modelsLoaded (k : Kind) (b : Bool) (pre : Detections)
    (s : EngineState) :
    (stepKind k b pre s).modelsLoaded = s.modelsLoaded := by
  unfold stepKind triggerDetection clearDetection
  cases b <;> rcases hp : pre.get k <;> simp [hp]

theorem stepKind_isMonitoring (k : Kind) (b : Bool) (pre : Detections)
    (s : EngineState) :
    (stepKind k b pre s).isMonitoring = s.isMonitoring := by
  unfold stepKind triggerDetection clearDetection
  cases b <;> rcases hp : pre.get k <;> simp [hp]

/-! ### Characterization of a completed tick -/

theorem runDetection_stats_get (i : FrameInput) (s : EngineState)
    (h1 : i.videoPresent = true) (h2 : s.cameraActive = true)
    (h3 : s.modelsLoaded = true) (k : Kind) :
    (runDetection i s).stats.get k =
      s.stats.get k +
        (if kindOutput i s k = true ∧ s.currentDetections.get k = false
          then 1 else 0) := by
  cases k <;>
    simp [runDetection, h1, h2, h3, kindOutput, stepKind_stats_get]

theorem runDetection_det_get (i : FrameInput) (s : EngineState)
    (h1 : i.videoPresent = true) (h2 : s.cameraActive = true)
    (h3 : s.modelsLoaded = true) (k : Kind) :
    (runDetection i s).currentDetections.get k = kindOutput i s k := by
  cases k <;>
    simp [runDetection, h1, h2, h3, kindOutput,
      stepKind_det_get_ne, stepKind_det_get_self]

theorem runDetection_focusLostFrames (i : FrameInput) (s : EngineState)
    (h1 : i.videoPresent = true) (h2 : s.cameraActive = true)
    (h3 : s.modelsLoaded = true) :
    (runDetection i s).focusLostFrames =
      (detectFocusLoss i.faces.head?
        (orDefault i.videoWidth 640) (orDefault i.videoHeight 480)
        s.focusLostFrames).1 := by
  simp [runDetection, h1, h2, h3, stepKind_focusLostFrames]

theorem runDetection_drowsyFrames (i : FrameInput) (s : EngineState)
    (h1 : i.videoPresent = true) (h2 : s.cameraActive = true)
    (h3 : s.modelsLoaded = true) :
    (runDetection i s).drowsyFrames =
      (detectDrowsiness i.faces.head? i.coin s.drowsyFrames).1 := by
  simp [runDetection, h1, h2, h3, stepKind_drowsyFrames]

theorem runDetection_cameraActive (i : FrameInput) (s : EngineState) :
    (runDetection i s).cameraActive = s.cameraActive := by
  unfold runDetection
  split
  · rfl
  · simp [stepKind_cameraActive]

theorem runDetection_modelsLoaded (i : FrameInput) (s : EngineState) :
    (runDetection i s).modelsLoaded = s.modelsLoaded := by
  unfold runDetection
  split
  · rfl
  · simp [stepKind_modelsLoaded]

/-- A tick whose gate fails (line 136) changes nothing. -/
theorem runDetection_not_run (i : FrameInput) (s : EngineState)
    (h : i.videoPresent = false ∨ s.cameraActive = false ∨
      s.modelsLoaded = false) :
    runDetection i s = s := by
  unfold runDetection
  rcases h with h | h | h <;> simp [h]

/-! ### Concrete data for witnesses -/

/-- A freshly-initialised state with camera, models and monitoring on. -/
def demoState : EngineState :=
  { stats := Stats.zero, currentDetections := Detections.allFalse,
    focusLostFrames := 0, drowsyFrames := 0,
    isMonitoring := true, cameraActive := true, modelsLoaded := true,
    detectionResults := [] }

/-- A face centred in a 640x480 frame, with landmarks. -/
def demoFace : Face :=
  { centerX := 320, centerY := 240, probability := 9 / 10,
    hasLandmarks := true }

/-- A tick with one centred face and a phone prediction. -/
def demoInputPhone : FrameInput :=
  { videoPresent := true, faces := [demoFace],
    preds := [⟨"cell phone", 9 / 10⟩],
    videoWidth := 640, videoHeight := 480, coin := false }

/-- A tick with one centred face and no object predictions. -/
def demoInputPlain : FrameInput :=
  { videoPresent := true, faces := [demoFace], preds := [],
    videoWidth := 640, videoHeight := 480, coin := false }

/-- A tick with no face at all. -/
def demoInputNoFace : FrameInput :=
  { videoPresent := true, faces := [], preds := [],
    videoWidth := 640, videoHeight := 480, coin := false }

/-- A tick on which the video element is gone. -/
def demoInputNoVideo : FrameInput :=
  { videoPresent := false, faces := [demoFace], preds := [],
    videoWidth := 640, videoHeight := 480, coin := false }

/-! ### Claim theorems -/

/-- C2: the derived severity level is Critical for total ≥ 20,
High Risk for 15 ≤ total ≤ 19, Medium Risk for 8 ≤ total ≤ 14,
Low Risk for 3 ≤ total ≤ 7 and Normal for total ≤ 2; thresholds are
inclusive lower bounds evaluated highest-first, so total 7, 8, 19, 20
and 0 give Low Risk, Medium Risk, High Risk, Critical and Normal. -/
theorem C2_severity_bands (t : ℕ) :
    (20 ≤ t → getSeverityLevel t = "Critical")
    ∧ (15 ≤ t → t ≤ 19 → getSeverityLevel t = "High Risk")
    ∧ (8 ≤ t → t ≤ 14 → getSeverityLevel t = "Medium Risk")
    ∧ (3 ≤ t → t ≤ 7 → getSeverityLevel t = "Low Risk")
    ∧ (t ≤ 2 → getSeverityLevel t = "Normal")
    ∧ getSeverityLevel 7 = "Low Risk"
    ∧ getSeverityLevel 8 = "Medium Risk"
    ∧ getSeverityLevel 19 = "High Risk"
    ∧ getSeverityLevel 20 = "Critical"
    ∧ getSeverityLevel 0 = "Normal" := by
  refine ⟨?_, ?_, ?_, ?_, ?_, rfl, rfl, rfl, rfl, rfl⟩ <;>
    · intros
      unfold getSeverityLevel
      split_ifs <;> first | rfl | omega

/-- Witness instantiating C2 at total = 16 (High Risk band). -/
theorem C2_severity_bands_witness :
    (15 ≤ 16 ∧ 16 ≤ 19) ∧ getSeverityLevel 16 = "High Risk" :=
  ⟨by decide, (C2_severity_bands 16).2.1 (by decide) (by decide)⟩

/-- C4: the drowsiness tracker resets its counter to 0 and returns
false whenever the tick has no face, or the face has no landmark
data. -/
theorem C4_drowsiness_requires_landmarks (face : Option Face)
    (coin : Bool) (c : ℕ) :
    (face = none → detectDrowsiness face coin c = (0, false))
    ∧ (∀ f : Face, face = some f → f.hasLandmarks = false →
        detectDrowsiness face coin c = (0, false)) := by
  constructor
  · intro h
    subst h
    rfl
  · intro f hf hl
    subst hf
    simp [detectDrowsiness, hl]

/-- Witness instantiating C4 at a face-free tick and at a face without
landmarks. -/
theorem C4_drowsiness_requires_landmarks_witness :
    detectDrowsiness none true 7 = (0, false)
    ∧ detectDrowsiness (some { demoFace with hasLandmarks := false })
        true 7 = (0, false) :=
  ⟨(C4_drowsiness_requires_landmarks none true 7).1 rfl,
   (C4_drowsiness_requires_landmarks
      (some { demoFace with hasLandmarks := false }) true 7).2
      { demoFace with hasLandmarks := false } rfl rfl⟩

/-- C5: `resetStats` is idempotent, and a reset state has all six
counters at 0, all six active flags false, and both hysteresis
counters at 0. -/
theorem C5_reset_idempotent (s : EngineState) :
    resetStats (resetStats s) = resetStats s
    ∧ (∀ k : Kind, (resetStats s).stats.get k = 0
        ∧ (resetStats s).currentDetections.get k = false)
    ∧ (resetStats s).focusLostFrames = 0
    ∧ (resetStats s).drowsyFrames = 0 := by
  refine ⟨rfl, fun k => ?_, rfl, rfl⟩
  cases k <;>
    simp [resetStats, Stats.get, Stats.zero, Detections.get,
      Detections.allFalse]

/-- C6: when the video element is absent or the models are not loaded,
the scheduled tick is skipped entirely and the state is untouched. -/
theorem C6_tick_skipped (i : FrameInput) (s : EngineState)
    (h : i.videoPresent = false ∨ s.modelsLoaded = false) :
    runDetection i s = s := by
  apply runDetection_not_run
  rcases h with h | h
  · exact Or.inl h
  · exact Or.inr (Or.inr h)

/-- Witness instantiating C6 at a tick with no video element. -/
theorem C6_tick_skipped_witness :
    (demoInputNoVideo.videoPresent = false ∨
      demoState.modelsLoaded = false)
    ∧ runDetection demoInputNoVideo demoState = demoState :=
  ⟨Or.inl rfl, C6_tick_skipped demoInputNoVideo demoState (Or.inl rfl)⟩

/-- C9: stopping monitoring changes only the monitoring and camera
flags; every counter, active flag and hysteresis counter survives. -/
theorem C9_stop_preserves_stats (s : EngineState)
    (h : s.isMonitoring = true) :
    (handleStartStop s).stats = s.stats
    ∧ (handleStartStop s).currentDetections = s.currentDetections
    ∧ (handleStartStop s).focusLostFrames = s.focusLostFrames
    ∧ (handleStartStop s).drowsyFrames = s.drowsyFrames
    ∧ (handleStartStop s).detectionResults = s.detectionResults
    ∧ (handleStartStop s).modelsLoaded = s.modelsLoaded
    ∧ (handleStartStop s).isMonitoring = false
    ∧ (handleStartStop s).cameraActive = false := by
  simp [handleStartStop, h]

/-- Witness instantiating C9 at a monitoring state with non-zero
statistics. -/
theorem C9_stop_preserves_stats_witness :
    ({ demoState with stats := ⟨1, 2, 3, 4, 5, 6⟩ } :
        EngineState).isMonitoring = true
    ∧ (handleStartStop
        { demoState with stats := ⟨1, 2, 3, 4, 5, 6⟩ }).stats =
      ({ demoState with stats := ⟨1, 2, 3, 4, 5, 6⟩ } :
        EngineState).stats :=
  ⟨rfl,
   (C9_stop_preserves_stats
      { demoState with stats := ⟨1, 2, 3, 4, 5, 6⟩ } rfl).1⟩

/-- The phone flag over the mapped objects equals scanning the raw
predictions for class "cell phone". -/
theorem phoneDetected_detectObjectsTF (preds : List CocoPred) :
    phoneDetected (detectObjectsTF preds) =
      preds.any (fun p => p.cls == "cell phone") := by
  induction preds with
  | nil => rfl
  | cons p rest ih =>
    by_cases hcp : p.cls = "cell phone"
    · simp [detectObjectsTF, phoneDetected, List.filter_cons, hcp]
    · by_cases hbk : p.cls = "book" <;>
        · simp only [List.any_cons]
          rw [show (p.cls == "cell phone") = false by simp [hcp]]
          simp only [Bool.false_or]
          rw [← ih]
          simp [detectObjectsTF, phoneDetected, List.filter_cons,
            hcp, hbk]

/-- The notes flag over the mapped objects equals scanning the raw
predictions for class "book". -/
theorem notesDetected_detectObjectsTF (preds : List CocoPred) :
    notesDetected (detectObjectsTF preds) =
      preds.any (fun p => p.cls == "book") := by
  induction preds with
  | nil => rfl
  | cons p rest ih =>
    by_cases hcp : p.cls = "cell phone"
    · have hbk : ¬ p.cls = "book" := by
        rw [hcp]
        decide
      simp only [List.any_cons]
      rw [show (p.cls == "book") = false by simp [hbk]]
      simp only [Bool.false_or]
      rw [← ih]
      simp [detectObjectsTF, notesDetected, List.filter_cons, hcp, hbk]
    · by_cases hbk : p.cls = "book"
      · simp [detectObjectsTF, notesDetected, List.filter_cons,
          hcp, hbk]
      · simp only [List.any_cons]
        rw [show (p.cls == "book") = false by simp [hbk]]
        simp only [Bool.false_or]
        rw [← ih]
        simp [detectObjectsTF, notesDetected, List.filter_cons,
          hcp, hbk]

/-- C7: `phoneDetected` holds iff some detection carries the phone
class and `notesDetected` holds iff some detection carries the book
(notes) class — the source's name for the notes taxonomy entry is the
class string "book" — and neither flag depends on the detections'
confidence values; at the raw prediction level, the flags hold iff
some coco-ssd prediction has class "cell phone" / "book". -/
theorem C7_object_flags (objects : List DetectedObject)
    (preds : List CocoPred) :
    (phoneDetected objects = true ↔ ∃ o ∈ objects, o.cls = "phone")
    ∧ (notesDetected objects = true ↔ ∃ o ∈ objects, o.cls = "book")
    ∧ (∀ g : ℚ → ℚ,
        phoneDetected
            (objects.map (fun o => { o with confidence := g o.confidence }))
          = phoneDetected objects
        ∧ notesDetected
            (objects.map (fun o => { o with confidence := g o.confidence }))
          = notesDetected objects)
    ∧ (phoneDetected (detectObjectsTF preds) = true ↔
        ∃ p ∈ preds, p.cls = "cell phone")
    ∧ (notesDetected (detectObjectsTF preds) = true ↔
        ∃ p ∈ preds, p.cls = "book") := by
  refine ⟨?_, ?_, ?_, ?_, ?_⟩
  · simp [phoneDetected, List.any_eq_true]
  · simp [notesDetected, List.any_eq_true]
  · intro g
    constructor <;>
      simp [phoneDetected, notesDetected, List.any_map,
        Function.comp_def]
  · rw [phoneDetected_detectObjectsTF]
    simp [List.any_eq_true]
  · rw [notesDetected_detectObjectsTF]
    simp [List.any_eq_true]

/-- C8: every completed tick publishes a full six-entry snapshot into
`detectionResults` — the kinds appear in the fixed source order, and
every kind occurs exactly once, whether or not it changed. -/
theorem C8_full_snapshot (i : FrameInput) (s : EngineState)
    (h1 : i.videoPresent = true) (h2 : s.cameraActive = true)
    (h3 : s.modelsLoaded = true) :
    (runDetection i s).detectionResults.map (fun r => r.type) =
      [Kind.faceAbsent, Kind.multipleFaces, Kind.focusLost,
       Kind.drowsiness, Kind.phoneDetected, Kind.notesDetected]
    ∧ ∀ k : Kind,
        ((runDetection i s).detectionResults.filter
          (fun r => decide (r.type = k))).length = 1 := by
  constructor
  · simp [runDetection, h1, h2, h3]
  · intro k
    cases k <;> simp [runDetection, h1, h2, h3, List.filter]

/-- Witness instantiating C8 at a concrete tick. -/
theorem C8_full_snapshot_witness :
    (demoInputPhone.videoPresent = true ∧ demoState.cameraActive = true
      ∧ demoState.modelsLoaded = true)
    ∧ ((runDetection demoInputPhone demoState).detectionResults.filter
        (fun r => decide (r.type = Kind.phoneDetected))).length = 1 :=
  ⟨⟨rfl, rfl, rfl⟩,
   (C8_full_snapshot demoInputPhone demoState rfl rfl rfl).2
     Kind.phoneDetected⟩

/-- C10: after a completed tick with no face, the drowsiness flag is
inactive and the drowsiness hysteresis counter is 0; conversely the
drowsiness flag can only be active after a tick whose primary face
carried landmark data. -/
theorem C10_drowsiness_needs_face (i : FrameInput) (s : EngineState)
    (h1 : i.videoPresent = true) (h2 : s.cameraActive = true)
    (h3 : s.modelsLoaded = true) :
    (i.faces = [] →
      (runDetection i s).currentDetections.get Kind.drowsiness = false
      ∧ (runDetection i s).drowsyFrames = 0)
    ∧ ((runDetection i s).currentDetections.get Kind.drowsiness = true →
      ∃ f : Face, i.faces.head? = some f ∧ f.hasLandmarks = true) := by
  constructor
  · intro hf
    constructor
    · rw [runDetection_det_get i s h1 h2 h3]
      simp [kindOutput, hf, detectDrowsiness]
    · rw [runDetection_drowsyFrames i s h1 h2 h3]
      simp [hf, detectDrowsiness]
  · intro hact
    rw [runDetection_det_get i s h1 h2 h3] at hact
    simp only [kindOutput] at hact
    rcases hface : i.faces.head? with _ | f
    · rw [hface] at hact
      simp [detectDrowsiness] at hact
    · rw [hface] at hact
      refine ⟨f, rfl, ?_⟩
      by_contra hl
      rw [Bool.not_eq_true] at hl
      simp [detectDrowsiness, hl] at hact

/-- Witness instantiating C10 at a face-free tick. -/
theorem C10_drowsiness_needs_face_witness :
    (demoInputNoFace.videoPresent = true ∧ demoInputNoFace.faces = [])
    ∧ (runDetection demoInputNoFace demoState).currentDetections.get
        Kind.drowsiness = false
    ∧ (runDetection demoInputNoFace demoState).drowsyFrames = 0 :=
  ⟨⟨rfl, rfl⟩,
   (C10_drowsiness_needs_face demoInputNoFace demoState rfl rfl rfl).1
     rfl⟩

theorem runTicks_nil (s : EngineState) : runTicks [] s = s := rfl

theorem runTicks_cons (i : FrameInput) (rest : List FrameInput)
    (s : EngineState) :
    runTicks (i :: rest) s = runTicks rest (runDetection i s) := rfl

/-- The edge-counting invariant, proved by induction along the tick
list: the counter of any kind grows by exactly the number of
false→true edges of that kind's classifier-output trace. -/
theorem count_eq_start_add_edges (k : Kind) (inputs : List FrameInput)
    (s : EngineState) (hc : s.cameraActive = true)
    (hm : s.modelsLoaded = true)
    (hv : ∀ i ∈ inputs, i.videoPresent = true) :
    (runTicks inputs s).stats.get k =
      s.stats.get k +
        countEdges (s.currentDetections.get k) (outputTrace k inputs s) := by
  induction inputs generalizing s with
  | nil => simp [runTicks_nil, outputTrace, countEdges]
  | cons i rest ih =>
    have hvi : i.videoPresent = true := hv i (by simp)
    have hv' : ∀ j ∈ rest, j.videoPresent = true := by
      intro j hj
      exact hv j (by simp [hj])
    have hc' : (runDetection i s).cameraActive = true := by
      rw [runDetection_cameraActive]
      exact hc
    have hm' : (runDetection i s).modelsLoaded = true := by
      rw [runDetection_modelsLoaded]
      exact hm
    rw [runTicks_cons, ih (runDetection i s) hc' hm' hv',
      runDetection_stats_get i s hvi hc hm k,
      runDetection_det_get i s hvi hc hm k, outputTrace, countEdges]
    rcases hout : kindOutput i s k with _ | _ <;>
      rcases hdet : s.currentDetections.get k with _ | _ <;>
        first
          | (simp [hout, hdet]; omega)
          | simp [hout, hdet]

/-- C1: over any run of completed ticks, each kind's counter equals
its starting value plus the number of false→true edges of that kind's
classifier-output trace; in particular a single completed tick never
decreases a counter and never increments it while the kind is already
active. -/
theorem C1_edge_counting (k : Kind) :
    (∀ (inputs : List FrameInput) (s : EngineState),
      s.cameraActive = true → s.modelsLoaded = true →
      (∀ i ∈ inputs, i.videoPresent = true) →
      (runTicks inputs s).stats.get k =
        s.stats.get k +
          countEdges (s.currentDetections.get k) (outputTrace k inputs s))
    ∧ (∀ (i : FrameInput) (s : EngineState),
        s.stats.get k ≤ (runDetection i s).stats.get k)
    ∧ (∀ (i : FrameInput) (s : EngineState),
        s.currentDetections.get k = true →
        (runDetection i s).stats.get k = s.stats.get k) := by
  refine ⟨fun inputs s hc hm hv =>
    count_eq_start_add_edges k inputs s hc hm hv, ?_, ?_⟩
  · intro i s
    rcases hv : i.videoPresent with _ | _
    · rw [runDetection_not_run i s (Or.inl hv)]
    · rcases hc : s.cameraActive with _ | _
      · rw [runDetection_not_run i s (Or.inr (Or.inl hc))]
      · rcases hm : s.modelsLoaded with _ | _
        · rw [runDetection_not_run i s (Or.inr (Or.inr hm))]
        · rw [runDetection_stats_get i s hv hc hm k]
          omega
  · intro i s hdet
    rcases hv : i.videoPresent with _ | _
    · rw [runDetection_not_run i s (Or.inl hv)]
    · rcases hc : s.cameraActive with _ | _
      · rw [runDetection_not_run i s (Or.inr (Or.inl hc))]
      · rcases hm : s.modelsLoaded with _ | _
        · rw [runDetection_not_run i s (Or.inr (Or.inr hm))]
        · rw [runDetection_stats_get i s hv hc hm k]
          simp [hdet]

/-- Witness instantiating C1 on a three-tick run (phone present,
absent, present again) for the phone kind. -/
theorem C1_edge_counting_witness :
    (demoState.cameraActive = true ∧ demoState.modelsLoaded = true
      ∧ ∀ i ∈ [demoInputPhone, demoInputPlain, demoInputPhone],
          i.videoPresent = true)
    ∧ (runTicks [demoInputPhone, demoInputPlain, demoInputPhone]
        demoState).stats.get Kind.phoneDetected =
      demoState.stats.get Kind.phoneDetected +
        countEdges (demoState.currentDetections.get Kind.phoneDetected)
          (outputTrace Kind.phoneDetected
            [demoInputPhone, demoInputPlain, demoInputPhone] demoState) :=
  ⟨⟨rfl, rfl, by decide⟩,
   (C1_edge_counting Kind.phoneDetected).1
     [demoInputPhone, demoInputPlain, demoInputPhone] demoState rfl rfl
     (by decide)⟩

/-- C3: the focus tracker increments its counter by exactly 1 when no
face is present; with a face it increments by 1 when the euclidean
distance of the face centre from the frame centre exceeds a quarter of
the smaller frame dimension and otherwise decrements by 1 floored at 0
(`ℕ` subtraction); the call returns true iff the resulting counter has
reached `FOCUS_LOST_FRAMES = 35`, so it returns true at counter 35 and
false at counter 34.  The distance condition is stated with the genuine
`Real.sqrt`, matching the source's `Math.sqrt` comparison. -/
theorem C3_focus_tracker (face : Option Face) (w h : ℚ) (c : ℕ) :
    (face = none → (detectFocusLoss face w h c).1 = c + 1)
    ∧ (∀ f : Face, face = some f → 0 < w → 0 < h →
        ((min (w : ℝ) (h : ℝ) / 4 <
            Real.sqrt (((f.centerX : ℝ) - (w : ℝ) / 2) ^ 2 +
              ((f.centerY : ℝ) - (h : ℝ) / 2) ^ 2) →
          (detectFocusLoss face w h c).1 = c + 1)
        ∧ (¬ min (w : ℝ) (h : ℝ) / 4 <
            Real.sqrt (((f.centerX : ℝ) - (w : ℝ) / 2) ^ 2 +
              ((f.centerY : ℝ) - (h : ℝ) / 2) ^ 2) →
          (detectFocusLoss face w h c).1 = c - 1)))
    ∧ ((detectFocusLoss face w h c).2 = true ↔
        FOCUS_LOST_FRAMES ≤ (detectFocusLoss face w h c).1)
    ∧ ((detectFocusLoss face w h c).1 = 35 →
        (detectFocusLoss face w h c).2 = true)
    ∧ ((detectFocusLoss face w h c).1 = 34 →
        (detectFocusLoss face w h c).2 = false) := by
  have hiff : (detectFocusLoss face w h c).2 = true ↔
      FOCUS_LOST_FRAMES ≤ (detectFocusLoss face w h c).1 := by
    cases face with
    | none => simp [detectFocusLoss, ge_iff_le]
    | some f =>
      cases hd : driftExceeds f w h <;>
        simp [detectFocusLoss, hd, ge_iff_le]
  refine ⟨?_, ?_, hiff, ?_, ?_⟩
  · intro hf
    subst hf
    rfl
  · intro f hf hw hh
    subst hf
    have key : driftExceeds f w h = true ↔
        min (w : ℝ) (h : ℝ) / 4 <
          Real.sqrt (((f.centerX : ℝ) - (w : ℝ) / 2) ^ 2 +
            ((f.centerY : ℝ) - (h : ℝ) / 2) ^ 2) := by
      rw [driftExceeds, decide_eq_true_eq]
      have ht : (0 : ℝ) ≤ min (w : ℝ) (h : ℝ) / 4 := by positivity
      rw [Real.lt_sqrt ht,
        ← sq_abs ((f.centerX : ℝ) - (w : ℝ) / 2),
        ← sq_abs ((f.centerY : ℝ) - (h : ℝ) / 2)]
      constructor
      · intro hq
        exact_mod_cast hq
      · intro hr
        exact_mod_cast hr
    constructor
    · intro hdrift
      rw [← key] at hdrift
      simp [detectFocusLoss, hdrift]
    · intro hdrift
      rw [← key] at hdrift
      rw [Bool.not_eq_true] at hdrift
      simp [detectFocusLoss, hdrift]
  · intro h35
    rw [hiff, h35]
    decide
  · intro h34
    rcases hb : (detectFocusLoss face w h c).2 with _ | _
    · rfl
    · have h35 := hiff.mp hb
      rw [h34] at h35
      exact absurd h35 (by decide)

/-- Witness instantiating C3: a centred face decays the counter
(5 → 4), and a missing face pushes counter 34 to 35, flipping the
returned flag to true. -/
theorem C3_focus_tracker_witness :
    (detectFocusLoss (some demoFace) 640 480 5).1 = 5 - 1
    ∧ (detectFocusLoss none 640 480 34).1 = 34 + 1
    ∧ (detectFocusLoss none 640 480 34).2 = true := by
  refine ⟨?_, ?_, ?_⟩
  · refine ((C3_focus_tracker (some demoFace) 640 480 5).2.1 demoFace
      rfl (by norm_num) (by norm_num)).2 ?_
    have hx : ((demoFace.centerX : ℝ) - ((640 : ℚ) : ℝ) / 2) = 0 := by
      norm_num [demoFace]
    have hy : ((demoFace.centerY : ℝ) - ((480 : ℚ) : ℝ) / 2) = 0 := by
      norm_num [demoFace]
    rw [hx, hy]
    norm_num [Real.sqrt_zero]
  · exact (C3_focus_tracker none 640 480 34).1 rfl
  · exact (C3_focus_tracker none 640 480 34).2.2.2.1
      ((C3_focus_tracker none 640 480 34).1 rfl)

end DetectionStatistics
